import Mathlib

/-!
Shallow embedding of `main.py` from the Stock Analyzer (Responses API) repository.

The script reads three environment variables, builds one request to the
OpenAI Responses API carrying two tool descriptors (an MCP tool for
Alpha Vantage and a code interpreter), prints the response in three views,
and saves any container-file-citation artifacts to a fixed local path.

Modelling conventions:
- `os.getenv` results are `Option String`; Python truthiness of such a value
  (`if not x:`) is the `truthy` predicate (none and the empty string are falsy).
- Console output is a `List String` of printed lines (only the lines the
  claims are about; decorative separator lines are omitted).
- The vendor SDK calls are oracles passed as parameters: the Responses API
  call is `remote : AnalysisRequest → Except PyError Response`, and
  `client.containers.files.content.retrieve` is
  `retrieve : String → String → Bytes`.
- The response views printed by `call_openai` (`json.dumps(model_dump())`,
  `response.output`, `response.output_text`) are vendor-formatted; each
  rendering is modelled as its own trace event carrying the response.
- File and network side effects of `save_visualizations` are reified as an
  `Effect` list; the content of the single output path is an `Option Bytes`
  state folded over that list.
-/

/-- Raw bytes of a downloaded file, abstracted as a list of byte values. -/
abbrev Bytes := List Nat

-- Constants from main.py
def MODEL : String := "gpt-5-mini"

def MCP_SERVER_LABEL : String := "AlphaVantage"

def OUTPUT_IMAGE_PATH : String := "stock_image.png"

/-- The process environment: the three variables `main.py` reads.
`none` models an unset variable; `some ""` models one set to the empty string. -/
structure Env where
  OPENAI_API_KEY : Option String
  AUTHORIZATION : Option String
  SERVER_URL : Option String
deriving DecidableEq

/-- Python truthiness of an `os.getenv` result: `None` and `""` are falsy. -/
def truthy : Option String → Bool
  | none => false
  | some s => !s.isEmpty

/-- `validate_environment_variables` from main.py: returns the printed lines and
the `(openai_api_key, alphavantage_api_key, server_url)` triple, `(None, None, None)`
on the first missing variable. -/
def validate_environment_variables (env : Env) :
    List String × (Option String × Option String × Option String) :=
  let openai_api_key := env.OPENAI_API_KEY
  if truthy openai_api_key = false then
    (["❌ ERROR: OPENAI_API_KEY environment variable is not set!",
      "   Please check your .env file or environment variables."],
     (none, none, none))
  else
    let key_line := "✓ OpenAI API Key found (first 10 characters): "
      ++ (openai_api_key.getD "").take 10 ++ "..."
    let alphavantage_api_key := env.AUTHORIZATION
    if truthy alphavantage_api_key = false then
      ([key_line,
        "❌ ERROR: AUTHORIZATION environment variable is not set!",
        "   Please add your Alpha Vantage API key to the .env file."],
       (none, none, none))
    else
      let av_line := "✓ Alpha Vantage API Key found"
      let server_url := env.SERVER_URL
      if truthy server_url = false then
        ([key_line, av_line,
          "❌ ERROR: SERVER_URL environment variable is not set!",
          "   Please add your MCP server URL to the .env file."],
         (none, none, none))
      else
        ([key_line, av_line, "✓ MCP Server URL found\n"],
         (openai_api_key, alphavantage_api_key, server_url))

/-- `get_analysis_prompt` from main.py. -/
def get_analysis_prompt : String :=
  "Please analyze the Apple stock (AAPL) for the last 3 months using monthly data\n"
  ++ "    as the time window and not the daily prices.\n"
  ++ "    Use AlphaVantage as the data source for stock prices and the Code_interpreter tool for analysis.\n"
  ++ "\n    ### Analysis\n"
  ++ "    - Calculate month-over-month price changes (%)\n"
  ++ "    - Identify trend direction (up/down/sideways)\n"
  ++ "    - Compute key metrics: avg closing price, volatility, volume trends\n"
  ++ "\n    ### Visualization\n"
  ++ "    Generate using `code_interpreter`:\n"
  ++ "    - **Price chart**: Monthly OHLC data\n"
  ++ "    - **Volume chart**: Trading volume per month\n"
  ++ "\n    Ensure charts have clear titles, labels, and legends."

/-- A tool descriptor of the request: either the MCP remote-tool entry or the
code-interpreter entry, with the fields main.py populates. -/
inductive ToolDescriptor
  | mcp (server_label server_description server_url authorization require_approval : String)
  | code_interpreter (container_type memory_limit : String)
deriving DecidableEq

/-- Whether a descriptor has `type == "mcp"`. -/
def ToolDescriptor.isMcp : ToolDescriptor → Bool
  | .mcp _ _ _ _ _ => true
  | .code_interpreter _ _ => false

/-- The `require_approval` field of a descriptor, when it has one. -/
def ToolDescriptor.approval_policy : ToolDescriptor → Option String
  | .mcp _ _ _ _ ra => some ra
  | .code_interpreter _ _ => none

/-- The immutable value sent to `client.responses.create`. -/
structure AnalysisRequest where
  model : String
  tools : List ToolDescriptor
  input : String
deriving DecidableEq

/-- `create_api_response` from main.py: the request it hands to
`client.responses.create` (the SDK client handle itself is not modelled). -/
def create_api_response (user_prompt : String) (server_url : String) (api_key : String) :
    AnalysisRequest :=
  { model := MODEL
    tools := [ToolDescriptor.mcp MCP_SERVER_LABEL
                "Alpha Vantage MCP Server for financial market data"
                server_url api_key "never",
              ToolDescriptor.code_interpreter "auto" "4g"]
    input := user_prompt }

/-- A response annotation, as accessed by `save_visualizations`. -/
structure Annot where
  type : String
  container_id : String
  file_id : String
deriving DecidableEq

/-- One content entry of a message; `annotations = none` models a content object
without an `annotations` attribute (the `hasattr` check in main.py). -/
structure ContentEntry where
  annotations : Option (List Annot)
deriving DecidableEq

/-- A message of the response, as accessed by `save_visualizations`. -/
structure Message where
  content : List ContentEntry
deriving DecidableEq

/-- The Analysis Response, with the fields the code reads structurally.
The `output` / `output_text` views printed by `call_openai` are vendor-formatted
and are modelled as rendering events rather than as stored strings. -/
structure Response where
  messages : List Message
deriving DecidableEq

/-- The annotation list of a content entry, empty when the entry has no
`annotations` attribute. -/
def annots_of_content (c : ContentEntry) : List Annot :=
  match c.annotations with
  | none => []
  | some l => l

/-- All annotations of the response with `type == 'container_file_citation'`,
in the order the nested loops of `save_visualizations` visit them. -/
def matching_annots (response : Response) : List Annot :=
  (response.messages.map (fun m =>
    (m.content.map (fun c =>
      (annots_of_content c).filter (fun a => a.type == "container_file_citation"))).flatten)).flatten

/-- A side effect performed by `save_visualizations`: an artifact-fetch request
to the remote service, or a binary overwrite of a local file. -/
inductive Effect
  | fetch (container_id file_id : String)
  | writeFile (path : String) (content : Bytes)
deriving DecidableEq

/-- The two effects one matching annotation produces: download the file content,
then write it to `OUTPUT_IMAGE_PATH` (mode `'wb'`: full binary overwrite). -/
def annot_effects (retrieve : String → String → Bytes) (a : Annot) : List Effect :=
  [Effect.fetch a.container_id a.file_id,
   Effect.writeFile OUTPUT_IMAGE_PATH (retrieve a.container_id a.file_id)]

/-- `save_visualizations` from main.py, reified as the list of side effects it
performs, in order. -/
def save_visualizations (retrieve : String → String → Bytes) (response : Response) :
    List Effect :=
  ((matching_annots response).map (annot_effects retrieve)).flatten

/-- The content of the output path after one effect (a write replaces the file
wholesale; a fetch does not touch the filesystem). -/
def apply_effect (fs : Option Bytes) : Effect → Option Bytes
  | .fetch _ _ => fs
  | .writeFile p b => if p = OUTPUT_IMAGE_PATH then some b else fs

/-- Fold a list of effects over the output-path content. -/
def run_effects (fs : Option Bytes) : List Effect → Option Bytes
  | [] => fs
  | e :: rest => run_effects (apply_effect fs e) rest

/-- The content of `OUTPUT_IMAGE_PATH` after running `save_visualizations` on a
response, starting from prior content `fs`. -/
def save_result (retrieve : String → String → Bytes) (response : Response)
    (fs : Option Bytes) : Option Bytes :=
  run_effects fs (save_visualizations retrieve response)

/-- Last element of a list of annotations, if any. -/
def last_match : List Annot → Option Annot
  | [] => none
  | a :: rest =>
    match last_match rest with
    | none => some a
    | some b => some b

/-- The exceptions the `try` block of `call_openai` can surface, flattened to
the four handler categories of main.py. `unexpected` carries the runtime type
name of an exception outside the OpenAI hierarchy; `api_error` carries the
optional `status_code` attribute. -/
inductive PyError
  | authentication_error (msg : String)
  | api_error (status_code : Option Nat) (msg : String)
  | openai_error (msg : String)
  | unexpected (type_name msg : String)
deriving DecidableEq

/-- `isinstance(e, AuthenticationError)`. -/
def PyError.isAuthenticationError : PyError → Bool
  | .authentication_error _ => true
  | _ => false

/-- `isinstance(e, APIError)` (AuthenticationError is a subclass of APIError). -/
def PyError.isAPIError : PyError → Bool
  | .authentication_error _ => true
  | .api_error _ _ => true
  | _ => false

/-- `isinstance(e, OpenAIError)` (every error of the SDK hierarchy). -/
def PyError.isOpenAIError : PyError → Bool
  | .unexpected _ _ => false
  | _ => true

/-- `str(error)`. -/
def PyError.message : PyError → String
  | .authentication_error m => m
  | .api_error _ m => m
  | .openai_error m => m
  | .unexpected _ m => m

/-- The `status_code` attribute, when the error object has one. -/
def PyError.status : PyError → Option Nat
  | .api_error c _ => c
  | _ => none

/-- `type(error).__name__`. -/
def PyError.type_name : PyError → String
  | .authentication_error _ => "AuthenticationError"
  | .api_error _ _ => "APIError"
  | .openai_error _ => "OpenAIError"
  | .unexpected t _ => t

/-- `handle_authentication_error` from main.py. -/
def handle_authentication_error (err_msg : String) : List String :=
  ["\n❌ AUTHENTICATION ERROR:",
   "   The API key is invalid or expired!",
   "   Details: " ++ err_msg,
   "\n   Solutions:",
   "   1. Check if the API key is correct",
   "   2. Generate a new API key at: https://platform.openai.com/api-keys",
   "   3. Verify that your OpenAI account is still active"]

/-- `handle_api_error` from main.py. -/
def handle_api_error (status_code : Option Nat) (err_msg : String) : List String :=
  ["\n❌ API ERROR:",
   "   Status Code: " ++ (match status_code with
                          | some c => toString c
                          | none => "Unknown"),
   "   Details: " ++ err_msg,
   "\n   Possible causes:",
   "   - Quota exceeded (no credits remaining)",
   "   - Temporary issues at OpenAI",
   "   - Invalid request format"]

/-- `handle_openai_error` from main.py. -/
def handle_openai_error (err_msg : String) : List String :=
  ["\n❌ OPENAI ERROR:",
   "   Details: " ++ err_msg,
   "\n   Please check:",
   "   - API key validity",
   "   - Network connection",
   "   - OpenAI service status: https://status.openai.com/"]

/-- `handle_unexpected_error` from main.py. -/
def handle_unexpected_error (type_name err_msg : String) : List String :=
  ["\n❌ UNEXPECTED ERROR:",
   "   Type: " ++ type_name,
   "   Details: " ++ err_msg,
   "\n   Please contact support with this error message."]

/-- The `except` clause ladder of `call_openai`: the first matching clause, in
source order, handles the exception; every `PyError` is handled (the final
clause catches `Exception`), so nothing propagates. -/
def except_dispatch (e : PyError) : List String :=
  if e.isAuthenticationError then handle_authentication_error e.message
  else if e.isAPIError then handle_api_error e.status e.message
  else if e.isOpenAIError then handle_openai_error e.message
  else handle_unexpected_error e.type_name e.message

/-- One step of the observable trace of `call_openai`. -/
inductive Event
  | print (s : String)
  | networkCreate (req : AnalysisRequest)
  | renderDump (response : Response)
  | renderOutput (response : Response)
  | renderOutputText (response : Response)
  | extractArtifacts (effects : List Effect)
deriving DecidableEq

/-- The request-information lines `call_openai` prints before the API call. -/
def request_info (server_url : String) : List String :=
  ["→ Initializing OpenAI client...",
   "🤖 OPENAI RESPONSES API CALL",
   "Model: " ++ MODEL,
   "MCP Server: " ++ MCP_SERVER_LABEL,
   "MCP URL: " ++ server_url,
   "User Prompt:\n" ++ get_analysis_prompt]

/-- `call_openai` from main.py, as the trace of observable events of one run.
`remote` is the Responses API oracle (the single fallible operation of the
`try` block); `retrieve` is the artifact-download oracle. The function is
total: every raised `PyError` is consumed by `except_dispatch`. -/
def call_openai (env : Env) (remote : AnalysisRequest → Except PyError Response)
    (retrieve : String → String → Bytes) : List Event :=
  let v := validate_environment_variables env
  let vout := v.1
  let openai_api_key := v.2.1
  let alphavantage_api_key := v.2.2.1
  let server_url := v.2.2.2
  if ([openai_api_key, alphavantage_api_key, server_url].all truthy) = false then
    vout.map Event.print
  else
    let user_prompt := get_analysis_prompt
    let req := create_api_response user_prompt (server_url.getD "") (alphavantage_api_key.getD "")
    match remote req with
    | Except.error e =>
        vout.map Event.print
          ++ (request_info (server_url.getD "")).map Event.print
          ++ [Event.networkCreate req]
          ++ (except_dispatch e).map Event.print
    | Except.ok response =>
        vout.map Event.print
          ++ (request_info (server_url.getD "")).map Event.print
          ++ [Event.networkCreate req]
          ++ [Event.renderDump response, Event.renderOutput response,
              Event.renderOutputText response,
              Event.extractArtifacts (save_visualizations retrieve response)]

/-- Name of the first missing environment variable, in the order
`validate_environment_variables` checks them. -/
def first_missing (env : Env) : String :=
  if truthy env.OPENAI_API_KEY = false then "OPENAI_API_KEY"
  else if truthy env.AUTHORIZATION = false then "AUTHORIZATION"
  else "SERVER_URL"

/-- A retrieval oracle distinguishing the two files of the C7 witness response. -/
def c7_retrieve : String → String → Bytes :=
  fun _ f => if f = "f2" then [2, 2] else [1]

/-- The C7 witness response: two matching annotations in one content entry. -/
def c7_response : Response :=
  ⟨[⟨[⟨some [⟨"container_file_citation", "c1", "f1"⟩,
             ⟨"container_file_citation", "c2", "f2"⟩]⟩]⟩]⟩

/-- A remote oracle that always succeeds with an empty-message response. -/
def ok_remote : AnalysisRequest → Except PyError Response := fun _ => Except.ok ⟨[]⟩

/-- A retrieval oracle returning empty content. -/
def nil_retrieve : String → String → Bytes := fun _ _ => []

/-- A fully populated environment for witnesses. -/
def valid_env : Env := ⟨some "sk-test-key", some "av-key", some "https://mcp.example"⟩

/-- An environment whose first variable is unset. -/
def missing_env : Env := ⟨none, some "av-key", some "https://mcp.example"⟩

/-- The two C10 environments: valid, identical except for the first 10
characters of the model-service API key. -/
def c10_env1 : Env := ⟨some "AAAAAAAAAA-tail", some "av-key", some "https://mcp.example"⟩

/-- Second C10 environment, differing from the first only in the key's first
10 characters. -/
def c10_env2 : Env := ⟨some "BBBBBBBBBB-tail", some "av-key", some "https://mcp.example"⟩

/-- The events that render a view of the response or extract its artifacts. -/
def is_view_event : Event → Bool
  | .renderDump _ => true
  | .renderOutput _ => true
  | .renderOutputText _ => true
  | .extractArtifacts _ => true
  | _ => false

/-- Membership in the matching-annotation list, unfolded to the nested loops. -/
lemma mem_matching_annots (response : Response) (a : Annot) :
    a ∈ matching_annots response ↔
      ∃ m ∈ response.messages, ∃ c ∈ m.content,
        a ∈ annots_of_content c ∧ (a.type == "container_file_citation") = true := by
  simp only [matching_annots, List.mem_flatten, List.mem_map, List.mem_filter]
  aesop

/-- Running effects over an appended list runs the two parts in sequence. -/
lemma run_effects_append (fs : Option Bytes) (l1 l2 : List Effect) :
    run_effects fs (l1 ++ l2) = run_effects (run_effects fs l1) l2 := by
  induction l1 generalizing fs with
  | nil => rfl
  | cons e t ih => simp [run_effects, ih]

/-- Closed form of the file state after processing a list of annotations: the
last one wins (each iteration overwrites the whole file). -/
lemma run_annots_closed (retrieve : String → String → Bytes) (l : List Annot)
    (fs : Option Bytes) :
    run_effects fs ((l.map (annot_effects retrieve)).flatten)
      = match last_match l with
        | none => fs
        | some a => some (retrieve a.container_id a.file_id) := by
  induction l generalizing fs with
  | nil => rfl
  | cons a t ih =>
    have hstep : run_effects fs (annot_effects retrieve a)
        = some (retrieve a.container_id a.file_id) := by
      simp [annot_effects, run_effects, apply_effect]
    rw [List.map_cons, List.flatten_cons, run_effects_append, hstep, ih]
    cases h : last_match t with
    | none => simp [last_match, h]
    | some b => simp [last_match, h]

/-- Closed form of `save_result`: untouched file when no annotation matches,
else the bytes of the last matching annotation. -/
lemma save_result_closed (retrieve : String → String → Bytes) (response : Response)
    (fs : Option Bytes) :
    save_result retrieve response fs
      = match last_match (matching_annots response) with
        | none => fs
        | some a => some (retrieve a.container_id a.file_id) := by
  rw [save_result, save_visualizations, run_annots_closed]

/-- C1: the tools list built by `create_api_response` has exactly one descriptor
of type `"mcp"`, and that descriptor carries `server_label = "AlphaVantage"`,
`require_approval = "never"`, and `authorization` equal to the data-provider API
key passed in. -/
theorem c1_mcp_tool_unique (user_prompt server_url api_key : String) :
    (create_api_response user_prompt server_url api_key).tools.filter ToolDescriptor.isMcp
      = [ToolDescriptor.mcp "AlphaVantage"
           "Alpha Vantage MCP Server for financial market data"
           server_url api_key "never"]
    ∧ ((create_api_response user_prompt server_url api_key).tools.filter
         ToolDescriptor.isMcp).length = 1 := by
  constructor <;> rfl

/-- C4 counterexample: the claim that every constructed request fixes the MCP
approval policy to `"auto"` is false at a concrete input — the code sets
`require_approval` to `"never"`. -/
theorem c4_counterexample :
    ¬ (∀ t ∈ (create_api_response "p" "https://mcp.example" "demo-key").tools,
        t.isMcp = true → t.approval_policy = some "auto") := by
  decide

/-- C4 amended: every constructed request contains the remote data-provider tool
with approval policy fixed to `"never"` (not `"auto"`), and unconditionally
contains the code-execution sandbox descriptor with memory limit `"4g"` — the
sandbox is included on every request, not only when chart rendering is
requested (the builder has no chart-rendering input at all). -/
theorem c4_tools_amended (user_prompt server_url api_key : String) :
    (create_api_response user_prompt server_url api_key).tools
      = [ToolDescriptor.mcp "AlphaVantage"
           "Alpha Vantage MCP Server for financial market data"
           server_url api_key "never",
         ToolDescriptor.code_interpreter "auto" "4g"] := by
  rfl

/-- C5: when no content entry of any message carries an annotation of type
`container_file_citation`, `save_visualizations` performs no effect at all:
no artifact-fetch request, no file write, and (being total) no error. -/
theorem c5_no_citation_noop (retrieve : String → String → Bytes) (response : Response)
    (h : ∀ m ∈ response.messages, ∀ c ∈ m.content, ∀ a ∈ annots_of_content c,
          a.type ≠ "container_file_citation") :
    save_visualizations retrieve response = [] := by
  have hnil : matching_annots response = [] := by
    rw [List.eq_nil_iff_forall_not_mem]
    intro a ha
    rcases (mem_matching_annots response a).1 ha with ⟨m, hm, c, hc, hmem, hty⟩
    exact h m hm c hc a hmem (by simpa using hty)
  rw [save_visualizations, hnil]
  rfl

/-- C5 witness: a concrete response whose only annotations have other types
produces no effects. -/
theorem c5_no_citation_noop_witness :
    save_visualizations (fun _ _ => [0])
      ⟨[⟨[⟨none⟩, ⟨some [⟨"file_citation", "c1", "f1"⟩]⟩]⟩]⟩ = [] :=
  c5_no_citation_noop (fun _ _ => [0])
    ⟨[⟨[⟨none⟩, ⟨some [⟨"file_citation", "c1", "f1"⟩]⟩]⟩]⟩ (by decide)

/-- C6: running the Artifact Extractor twice on the same response leaves the
same file content at the output path as running it once — the final content is
a deterministic function of the response annotations (and of the deterministic
fetch oracle), so the second run writes byte-identical content. -/
theorem c6_save_idempotent (retrieve : String → String → Bytes) (response : Response)
    (fs : Option Bytes) :
    save_result retrieve response (save_result retrieve response fs)
      = save_result retrieve response fs := by
  rcases h : last_match (matching_annots response) with _ | a <;>
    simp [save_result_closed, h]

/-- C7: every file write of `save_visualizations` targets the single fixed path
`"stock_image.png"`, and when several annotations match, each later write
overwrites the earlier one, so the final content equals the bytes fetched for
the last matching annotation. -/
theorem c7_single_output_path (retrieve : String → String → Bytes)
    (response : Response) (fs : Option Bytes) :
    (∀ p b, Effect.writeFile p b ∈ save_visualizations retrieve response →
       p = OUTPUT_IMAGE_PATH)
    ∧ (∀ a, last_match (matching_annots response) = some a →
         save_result retrieve response fs
           = some (retrieve a.container_id a.file_id)) := by
  constructor
  · intro p b hmem
    simp only [save_visualizations, List.mem_flatten, List.mem_map] at hmem
    obtain ⟨_, ⟨a, _, rfl⟩, hin⟩ := hmem
    simp only [annot_effects, List.mem_cons, List.mem_singleton] at hin
    rcases hin with h | h | h
    · cases h
    · cases h
      rfl
    · cases h
  · intro a ha
    rw [save_result_closed, ha]

/-- C7 witness: on a response with two matching annotations, the first write
targets the fixed path and the final file holds the bytes of the second
(last) annotation. -/
theorem c7_single_output_path_witness :
    "stock_image.png" = OUTPUT_IMAGE_PATH
    ∧ save_result c7_retrieve c7_response none = some [2, 2] :=
  ⟨(c7_single_output_path c7_retrieve c7_response none).1 "stock_image.png" [1]
      (by decide),
   (c7_single_output_path c7_retrieve c7_response none).2
      ⟨"container_file_citation", "c2", "f2"⟩ (by decide)⟩

/-- On a fully valid environment, `validate_environment_variables` prints the
three confirmation lines and returns the triple as read from the environment. -/
lemma validate_of_valid (env : Env) (h1 : truthy env.OPENAI_API_KEY = true)
    (h2 : truthy env.AUTHORIZATION = true) (h3 : truthy env.SERVER_URL = true) :
    validate_environment_variables env
      = (["✓ OpenAI API Key found (first 10 characters): "
            ++ (env.OPENAI_API_KEY.getD "").take 10 ++ "...",
          "✓ Alpha Vantage API Key found",
          "✓ MCP Server URL found\n"],
         (env.OPENAI_API_KEY, env.AUTHORIZATION, env.SERVER_URL)) := by
  simp [validate_environment_variables, h1, h2, h3]

/-- C9: the validator never returns a mixed triple — its result is either
`(none, none, none)` or three `some` values of non-empty strings — and when the
first variable (in check order) is missing, the printed diagnostic is exactly
the two lines naming that variable: later variables are not reported (shown
for the first two positions; the third has no later variable). -/
theorem c9_validate_dichotomy (env : Env) :
    ((validate_environment_variables env).2 = (none, none, none)
      ∨ ∃ a b c, (validate_environment_variables env).2 = (some a, some b, some c)
          ∧ a.isEmpty = false ∧ b.isEmpty = false ∧ c.isEmpty = false)
    ∧ (truthy env.OPENAI_API_KEY = false →
        (validate_environment_variables env).1
          = ["❌ ERROR: OPENAI_API_KEY environment variable is not set!",
             "   Please check your .env file or environment variables."])
    ∧ (truthy env.OPENAI_API_KEY = true → truthy env.AUTHORIZATION = false →
        (validate_environment_variables env).1
          = ["✓ OpenAI API Key found (first 10 characters): "
               ++ (env.OPENAI_API_KEY.getD "").take 10 ++ "...",
             "❌ ERROR: AUTHORIZATION environment variable is not set!",
             "   Please add your Alpha Vantage API key to the .env file."]) := by
  refine ⟨?_, ?_, ?_⟩
  · cases h1 : truthy env.OPENAI_API_KEY with
    | false => left; simp [validate_environment_variables, h1]
    | true =>
      cases h2 : truthy env.AUTHORIZATION with
      | false => left; simp [validate_environment_variables, h1, h2]
      | true =>
        cases h3 : truthy env.SERVER_URL with
        | false => left; simp [validate_environment_variables, h1, h2, h3]
        | true =>
          right
          rcases hk : env.OPENAI_API_KEY with _ | a
          · rw [hk] at h1; simp [truthy] at h1
          rcases ha : env.AUTHORIZATION with _ | b
          · rw [ha] at h2; simp [truthy] at h2
          rcases hu : env.SERVER_URL with _ | c
          · rw [hu] at h3; simp [truthy] at h3
          rw [hk] at h1
          rw [ha] at h2
          rw [hu] at h3
          refine ⟨a, b, c, ?_, ?_, ?_, ?_⟩
          · simp [validate_environment_variables, hk, ha, hu, h1, h2, h3]
          · simpa [truthy] using h1
          · simpa [truthy] using h2
          · simpa [truthy] using h3
  · intro h1
    simp [validate_environment_variables, h1]
  · intro h1 h2
    simp [validate_environment_variables, h1, h2]

/-- C9 witness: with the first two variables missing, the sentinel triple comes
back and the diagnostic names only `OPENAI_API_KEY`. -/
theorem c9_validate_dichotomy_witness :
    ((validate_environment_variables ⟨none, none, some "u"⟩).2 = (none, none, none)
      ∨ ∃ a b c, (validate_environment_variables ⟨none, none, some "u"⟩).2
            = (some a, some b, some c)
          ∧ a.isEmpty = false ∧ b.isEmpty = false ∧ c.isEmpty = false)
    ∧ (validate_environment_variables ⟨none, none, some "u"⟩).1
        = ["❌ ERROR: OPENAI_API_KEY environment variable is not set!",
           "   Please check your .env file or environment variables."] :=
  ⟨(c9_validate_dichotomy ⟨none, none, some "u"⟩).1,
   (c9_validate_dichotomy ⟨none, none, some "u"⟩).2.1 rfl⟩

/-- C10: on every successful validation the printed output contains a line
carrying the first 10 characters of the model-service API key, and for a
concrete pair of environments that differ only in those 10 characters the
printed output differs — the console output is not independent of the secret. -/
theorem c10_key_leak (env : Env) (h1 : truthy env.OPENAI_API_KEY = true)
    (h2 : truthy env.AUTHORIZATION = true) (h3 : truthy env.SERVER_URL = true) :
    ("✓ OpenAI API Key found (first 10 characters): "
        ++ (env.OPENAI_API_KEY.getD "").take 10 ++ "...")
      ∈ (validate_environment_variables env).1
    ∧ (validate_environment_variables c10_env1).1
        ≠ (validate_environment_variables c10_env2).1 := by
  constructor
  · rw [validate_of_valid env h1 h2 h3]
    exact List.mem_cons_self _ _
  · decide

/-- C10 witness: the key-prefix line is printed for a concrete valid
environment. -/
theorem c10_key_leak_witness :
    ("✓ OpenAI API Key found (first 10 characters): "
        ++ ((c10_env1.OPENAI_API_KEY).getD "").take 10 ++ "...")
      ∈ (validate_environment_variables c10_env1).1
    ∧ (validate_environment_variables c10_env1).1
        ≠ (validate_environment_variables c10_env2).1 :=
  c10_key_leak c10_env1 rfl rfl rfl

/-- C2: whenever one of the three required environment values is absent or
empty, the validator returns the sentinel `(None, None, None)` (it never
raises — it is a total function), the whole run consists only of the printed
validation diagnostics (the caller returns cleanly), no `networkCreate` event
occurs (so `create_api_response` is never invoked), and the diagnostic names
the first missing variable. -/
theorem c2_precondition_gating (env : Env)
    (remote : AnalysisRequest → Except PyError Response)
    (retrieve : String → String → Bytes)
    (h : truthy env.OPENAI_API_KEY = false ∨ truthy env.AUTHORIZATION = false
          ∨ truthy env.SERVER_URL = false) :
    (validate_environment_variables env).2 = (none, none, none)
    ∧ call_openai env remote retrieve
        = (validate_environment_variables env).1.map Event.print
    ∧ (∀ req, Event.networkCreate req ∉ call_openai env remote retrieve)
    ∧ ("❌ ERROR: " ++ first_missing env ++ " environment variable is not set!")
        ∈ (validate_environment_variables env).1 := by
  have hsent : (validate_environment_variables env).2 = (none, none, none) := by
    rcases h with h | h | h
    · simp [validate_environment_variables, h]
    · cases h1 : truthy env.OPENAI_API_KEY with
      | false => simp [validate_environment_variables, h1]
      | true => simp [validate_environment_variables, h1, h]
    · cases h1 : truthy env.OPENAI_API_KEY with
      | false => simp [validate_environment_variables, h1]
      | true =>
        cases h2 : truthy env.AUTHORIZATION with
        | false => simp [validate_environment_variables, h1, h2]
        | true => simp [validate_environment_variables, h1, h2, h]
  have htrace : call_openai env remote retrieve
      = (validate_environment_variables env).1.map Event.print := by
    simp [call_openai, hsent, truthy]
  refine ⟨hsent, htrace, ?_, ?_⟩
  · intro req
    rw [htrace]
    simp
  · cases h1 : truthy env.OPENAI_API_KEY with
    | false => simp [validate_environment_variables, first_missing, h1]
    | true =>
      cases h2 : truthy env.AUTHORIZATION with
      | false => simp [validate_environment_variables, first_missing, h1, h2]
      | true =>
        cases h3 : truthy env.SERVER_URL with
        | false => simp [validate_environment_variables, first_missing, h1, h2, h3]
        | true => rcases h with h | h | h <;> simp_all

/-- C2 witness: with `OPENAI_API_KEY` unset, the run is exactly the validation
diagnostics and the sentinel triple comes back. -/
theorem c2_precondition_gating_witness :
    (validate_environment_variables missing_env).2 = (none, none, none)
    ∧ call_openai missing_env ok_remote nil_retrieve
        = (validate_environment_variables missing_env).1.map Event.print :=
  ⟨(c2_precondition_gating missing_env ok_remote nil_retrieve (Or.inl rfl)).1,
   (c2_precondition_gating missing_env ok_remote nil_retrieve (Or.inl rfl)).2.1⟩

/-- C3: when the API call raises, the exception is consumed at the top level of
`call_openai` — the run ends with the diagnostic of the matching handler and
the trace is a well-defined list (the function is total, nothing is re-raised).
Each of the four recognized categories is dispatched to its own handler, the
unclassified handler reports the runtime type name and message, and the four
diagnostics are pairwise distinct already in their first line. -/
theorem c3_error_isolation (env : Env) (retrieve : String → String → Bytes)
    (e : PyError) (h1 : truthy env.OPENAI_API_KEY = true)
    (h2 : truthy env.AUTHORIZATION = true) (h3 : truthy env.SERVER_URL = true) :
    call_openai env (fun _ => Except.error e) retrieve
      = (validate_environment_variables env).1.map Event.print
        ++ (request_info (env.SERVER_URL.getD "")).map Event.print
        ++ [Event.networkCreate (create_api_response get_analysis_prompt
              (env.SERVER_URL.getD "") (env.AUTHORIZATION.getD ""))]
        ++ (except_dispatch e).map Event.print
    ∧ (∀ m, except_dispatch (PyError.authentication_error m)
          = handle_authentication_error m)
    ∧ (∀ c m, except_dispatch (PyError.api_error c m) = handle_api_error c m)
    ∧ (∀ m, except_dispatch (PyError.openai_error m) = handle_openai_error m)
    ∧ (∀ t m, except_dispatch (PyError.unexpected t m) = handle_unexpected_error t m)
    ∧ (∀ t m, "   Type: " ++ t ∈ handle_unexpected_error t m
          ∧ "   Details: " ++ m ∈ handle_unexpected_error t m)
    ∧ (∀ m1 c m2 m3 t m4,
        (handle_authentication_error m1).head? ≠ (handle_api_error c m2).head?
        ∧ (handle_authentication_error m1).head? ≠ (handle_openai_error m3).head?
        ∧ (handle_authentication_error m1).head? ≠ (handle_unexpected_error t m4).head?
        ∧ (handle_api_error c m2).head? ≠ (handle_openai_error m3).head?
        ∧ (handle_api_error c m2).head? ≠ (handle_unexpected_error t m4).head?
        ∧ (handle_openai_error m3).head? ≠ (handle_unexpected_error t m4).head?) := by
  refine ⟨?_, fun m => rfl, fun c m => rfl, fun m => rfl, fun t m => rfl, ?_, ?_⟩
  · simp [call_openai, validate_of_valid env h1 h2 h3, h1, h2, h3]
  · intro t m
    constructor <;> simp [handle_unexpected_error]
  · intro m1 c m2 m3 t m4
    refine ⟨?_, ?_, ?_, ?_, ?_, ?_⟩ <;>
      simp [handle_authentication_error, handle_api_error, handle_openai_error,
            handle_unexpected_error]

/-- C3 witness: an unclassified exception on a concrete valid environment ends
the run with the unexpected-error diagnostic. -/
theorem c3_error_isolation_witness :
    call_openai valid_env (fun _ => Except.error (PyError.unexpected "ValueError" "boom"))
        nil_retrieve
      = (validate_environment_variables valid_env).1.map Event.print
        ++ (request_info (valid_env.SERVER_URL.getD "")).map Event.print
        ++ [Event.networkCreate (create_api_response get_analysis_prompt
              (valid_env.SERVER_URL.getD "") (valid_env.AUTHORIZATION.getD ""))]
        ++ (except_dispatch (PyError.unexpected "ValueError" "boom")).map Event.print :=
  (c3_error_isolation valid_env nil_retrieve (PyError.unexpected "ValueError" "boom")
      rfl rfl rfl).1

/-- A printed-lines trace contains no view event. -/
lemma filter_print_nil (l : List String) :
    (l.map Event.print).filter is_view_event = [] := by
  induction l with
  | nil => rfl
  | cons s t ih => simp [is_view_event, ih]

/-- C8: on a successful invocation the trace is fully determined: after the
validation and request-information prints and the single API call, the
orchestrator renders the structured dump, then the raw output sequence, then
the flattened text view, and only then delegates to the Artifact Extractor —
restricted to view events the trace is exactly those four, in that order. -/
theorem c8_render_order (env : Env) (response : Response)
    (retrieve : String → String → Bytes) (h1 : truthy env.OPENAI_API_KEY = true)
    (h2 : truthy env.AUTHORIZATION = true) (h3 : truthy env.SERVER_URL = true) :
    call_openai env (fun _ => Except.ok response) retrieve
      = (validate_environment_variables env).1.map Event.print
        ++ (request_info (env.SERVER_URL.getD "")).map Event.print
        ++ [Event.networkCreate (create_api_response get_analysis_prompt
              (env.SERVER_URL.getD "") (env.AUTHORIZATION.getD ""))]
        ++ [Event.renderDump response, Event.renderOutput response,
            Event.renderOutputText response,
            Event.extractArtifacts (save_visualizations retrieve response)]
    ∧ (call_openai env (fun _ => Except.ok response) retrieve).filter is_view_event
        = [Event.renderDump response, Event.renderOutput response,
           Event.renderOutputText response,
           Event.extractArtifacts (save_visualizations retrieve response)] := by
  have htrace : call_openai env (fun _ => Except.ok response) retrieve
      = (validate_environment_variables env).1.map Event.print
        ++ (request_info (env.SERVER_URL.getD "")).map Event.print
        ++ [Event.networkCreate (create_api_response get_analysis_prompt
              (env.SERVER_URL.getD "") (env.AUTHORIZATION.getD ""))]
        ++ [Event.renderDump response, Event.renderOutput response,
            Event.renderOutputText response,
            Event.extractArtifacts (save_visualizations retrieve response)] := by
    simp [call_openai, validate_of_valid env h1 h2 h3, h1, h2, h3]
  refine ⟨htrace, ?_⟩
  rw [htrace]
  simp [List.filter_append, filter_print_nil, is_view_event]

/-- C8 witness: the fully determined success trace on a concrete environment
and response. -/
theorem c8_render_order_witness :
    call_openai valid_env (fun _ => Except.ok ⟨[]⟩) nil_retrieve
      = (validate_environment_variables valid_env).1.map Event.print
        ++ (request_info (valid_env.SERVER_URL.getD "")).map Event.print
        ++ [Event.networkCreate (create_api_response get_analysis_prompt
              (valid_env.SERVER_URL.getD "") (valid_env.AUTHORIZATION.getD ""))]
        ++ [Event.renderDump ⟨[]⟩, Event.renderOutput ⟨[]⟩,
            Event.renderOutputText ⟨[]⟩,
            Event.extractArtifacts (save_visualizations nil_retrieve ⟨[]⟩)] :=
  (c8_render_order valid_env ⟨[]⟩ nil_retrieve rfl rfl rfl).1
